import Mathlib

/-!
Shallow embedding of the `artifacts-crate` repository (src/src/lib.rs).

The crate provides `Artifact<T>`, a container `data: OnceCell<RwLock<T>>` with
four operations: `init` (load from a JSON file once), `get` (read access),
`update` (full-value replace), and `watch` (periodic reload loop).

Embedding choices:
- The `OnceCell<RwLock<T>>` cell is modelled as `Option T` (empty or holding a
  value).  The `RwLock` layer only matters for interleaving claims; its
  whole-value read/write granularity is captured by the value being replaced
  atomically in the model.
- The file system is a function `String → Except String String`: `.ok contents`
  models a successful open-and-read of the path, `.error msg` models an I/O
  failure whose `io::Error::to_string()` is `msg`.
- The serde decode step (`serde_json::from_str::<T>`) is a function
  `String → Except String T`, `.error msg` carrying the serde error message.
- Environment lookup (`std::env::var`) is a function `String → Option String`.
- Rust panics (`expect`/`unwrap`) are made explicit by the `Panics` wrapper.
- `watch` loops forever in the source; it is modelled with an explicit number
  of reload cycles (`fuel`), returning `none` as error component when the loop
  is still running after those cycles.  The file's contents may change between
  cycles, so the file system is indexed by the cycle number.
-/

namespace ArtifactsCrate

deriving instance DecidableEq for Except

/-- The error enum of the crate.  In the source each constructor carries either
a `std::io::Error`, a `serde_json::Error`, or a `String`; errors are modelled
by their message strings. -/
inductive ArtifactError where
  | IoError (msg : String)
  | SerdeError (msg : String)
  | InitializationError (msg : String)
  | UpdateError (msg : String)
  | WatchError (msg : String)
deriving DecidableEq, Repr

/-- The `Display` implementation of `ArtifactError` (used by `err.to_string()`
in `Artifact::init`). -/
def ArtifactError.toString : ArtifactError → String
  | .IoError m => "I/O error: " ++ m
  | .SerdeError m => "JSON serialization/deserialization error: " ++ m
  | .InitializationError m => "Initialization error: " ++ m
  | .UpdateError m => "Update error: " ++ m
  | .WatchError m => "Watch error: " ++ m

/-- The constructor ("kind") of an `ArtifactError`, forgetting the payload.
Used to state which variants an operation can return. -/
inductive ErrorKind where
  | io
  | serde
  | initialization
  | update
  | watch
deriving DecidableEq, Repr

/-- Maps each error to its kind (its enum variant). -/
def ArtifactError.kind : ArtifactError → ErrorKind
  | .IoError _ => .io
  | .SerdeError _ => .serde
  | .InitializationError _ => .initialization
  | .UpdateError _ => .update
  | .WatchError _ => .watch

/-- `Artifact<T>`: `data: OnceCell<RwLock<T>>`, the cell being empty or
holding one value. -/
structure Artifact (T : Type) where
  data : Option T
deriving DecidableEq, Repr

/-- Rust panic made explicit: an operation either panics with a message
(`expect`/`unwrap` on the empty cell or a failed `OnceCell::set`) or produces
a value. -/
inductive Panics (α : Type) where
  | panicked (msg : String)
  | value (a : α)
deriving DecidableEq, Repr

/-- `get_env_or_default`: `std::env::var(key).unwrap_or(default)`. -/
def get_env_or_default (env : String → Option String) (key : String)
    (dflt : String) : String :=
  (env key).getD dflt

/-- A path is absolute on Unix when it begins with `'/'` (same test as
`String.startsWith "/"`, phrased on the character list). -/
def isAbsolute (file : String) : Bool :=
  file.data.head? = some '/'

/-- `Path::new(base).join(file)` on Unix: an absolute `file` replaces the
base, otherwise the two are joined with a separator. -/
def path_join (base file : String) : String :=
  if isAbsolute file then file else base ++ "/" ++ file

/-- `get_data::<T>(path)`: open and read the file (any I/O failure becomes
`IoError`), then deserialize the contents (a serde failure becomes
`SerdeError`). -/
def get_data {T : Type} (fs : String → Except String String)
    (decode : String → Except String T) (path : String) :
    Except ArtifactError T :=
  match fs path with
  | .error err => .error (.IoError err)
  | .ok contents =>
    match decode contents with
    | .error err => .error (.SerdeError err)
    | .ok data => .ok data

/-- The outcome of one sequential `init` call: the artifact afterwards, the
returned `Result`, and how many times the source was accessed (`get_data`
invocations) during the call. -/
structure InitResult (T : Type) where
  artifact : Artifact T
  result : Except ArtifactError Unit
  loads : Nat
deriving DecidableEq, Repr

/-- `Artifact::init(artifact_file)` (sequential execution): if the cell is
populated, do nothing and return `Ok(())`; otherwise resolve the path from the
`ARTIFACTS_PATH` environment variable (default `"artifacts"`), load and decode
via `get_data`, and on success store the value.  A `get_data` error is wrapped
as `InitializationError(err.to_string())` and the cell stays empty. -/
def Artifact.init {T : Type} (a : Artifact T) (env : String → Option String)
    (fs : String → Except String String) (decode : String → Except String T)
    (artifact_file : String) : InitResult T :=
  match a.data with
  | some v => ⟨⟨some v⟩, .ok (), 0⟩
  | none =>
    let artifacts_path := get_env_or_default env "ARTIFACTS_PATH" "artifacts"
    let path := path_join artifacts_path artifact_file
    match get_data fs decode path with
    | .error err => ⟨⟨none⟩, .error (.InitializationError err.toString), 1⟩
    | .ok data => ⟨⟨some data⟩, .ok (), 1⟩

/-- `Artifact::get()`: `self.data.get().expect("Artifact is not initialized")`
then `Ok(read guard)`.  The read guard is modelled by the value it
dereferences to. -/
def Artifact.get {T : Type} (a : Artifact T) :
    Panics (Except ArtifactError T) :=
  match a.data with
  | none => .panicked "Artifact is not initialized"
  | some v => .value (.ok v)

/-- `Artifact::update(new_data)`: panic if the cell is empty, otherwise
replace the entire stored value with `new_data` and return `Ok(())`. -/
def Artifact.update {T : Type} (a : Artifact T) (new_data : T) :
    Panics (Artifact T × Except ArtifactError Unit) :=
  match a.data with
  | none => .panicked "Artifact is not initialized"
  | some _ => .value (⟨some new_data⟩, .ok ())

/-- The loop body of `Artifact::watch`, running `fuel` reload cycles starting
at cycle index `k`.  Each cycle sleeps, loads `path` from the cycle's file
system `fsAt k`, and on success applies `update`; a load failure returns
`WatchError(e.to_string())`, an `update` error would return
`UpdateError(e.to_string())`.  Error component `none` means the loop is still
running after `fuel` cycles. -/
def watchGo {T : Type} (fsAt : Nat → String → Except String String)
    (decode : String → Except String T) (path : String) :
    Artifact T → Nat → Nat → Panics (Artifact T × Option ArtifactError)
  | a, _, 0 => .value (a, none)
  | a, k, fuel + 1 =>
    match get_data (fsAt k) decode path with
    | .ok new_data =>
      match a.update new_data with
      | .panicked msg => .panicked msg
      | .value (a', .ok _) => watchGo fsAt decode path a' (k + 1) fuel
      | .value (a', .error e) => .value (a', some (.UpdateError e.toString))
    | .error e => .value (a, some (.WatchError e.toString))

/-- `Artifact::watch(artifact_file, interval_secs)`: resolve the path the same
way as `init`, then loop (`watchGo`).  The sleep interval plays no role in the
functional model; the loop is cut off after `fuel` cycles. -/
def Artifact.watch {T : Type} (a : Artifact T) (env : String → Option String)
    (fsAt : Nat → String → Except String String)
    (decode : String → Except String T) (artifact_file : String)
    (fuel : Nat) : Panics (Artifact T × Option ArtifactError) :=
  let artifacts_path := get_env_or_default env "ARTIFACTS_PATH" "artifacts"
  let path := path_join artifacts_path artifact_file
  watchGo fsAt decode path a 0 fuel

/-!
Interleaved execution of concurrent `init` calls.

`Artifact::init` reads the cell (`self.data.get().is_none()`), then — across
an await point — runs `get_data` and finally `self.data.set(..).unwrap()`.
Each task is therefore modelled with two atomic steps: the emptiness check,
and the load-then-set.  `OnceCell::set` fails if the cell was filled in
between; the source calls `.unwrap()` on that result, i.e. panics.
All tasks init the same artifact from the same source, so every load yields
the same `load : Except ArtifactError T` (the `get_data` result).
-/

/-- The program counter of one task running `Artifact::init`. -/
inductive InitPhase (T : Type) where
  | ready
  | checked
  | finished (ok : Bool)
  | panicked
deriving DecidableEq, Repr

/-- State of `n` tasks concurrently running `init` on one shared artifact:
the cell, each task's phase, and how often the source has been decoded. -/
structure InitSystem (T : Type) where
  cell : Option T
  tasks : List (InitPhase T)
  decodes : Nat
deriving DecidableEq, Repr

/-- One atomic step of a single `init` task.  `ready`: the `is_none` check —
a populated cell means return `Ok(())` at once, an empty one means proceed to
load.  `checked`: run `get_data` (one decode); on error return `Err`; on
success `set` the cell, panicking (`unwrap`) if another task filled it in the
meantime. -/
def initTaskStep {T : Type} (load : Except ArtifactError T) (cell : Option T)
    (ph : InitPhase T) (decodes : Nat) : Option T × InitPhase T × Nat :=
  match ph with
  | .ready =>
    match cell with
    | some v => (some v, .finished true, decodes)
    | none => (none, .checked, decodes)
  | .checked =>
    match load with
    | .error _ => (cell, .finished false, decodes + 1)
    | .ok v =>
      match cell with
      | none => (some v, .finished true, decodes + 1)
      | some w => (some w, .panicked, decodes + 1)
  | .finished ok => (cell, .finished ok, decodes)
  | .panicked => (cell, .panicked, decodes)

/-- Schedule task `i` of the system for one atomic step (no-op if `i` is out
of range). -/
def initSystemStep {T : Type} (load : Except ArtifactError T)
    (s : InitSystem T) (i : Nat) : InitSystem T :=
  match s.tasks[i]? with
  | none => s
  | some ph =>
    match initTaskStep load s.cell ph s.decodes with
    | (cell', ph', decodes') => ⟨cell', s.tasks.set i ph', decodes'⟩

/-- Run the concurrent `init` system under a schedule (a list of task
indices, each entry granting one atomic step to that task). -/
def initRun {T : Type} (load : Except ArtifactError T) (s : InitSystem T)
    (sched : List Nat) : InitSystem T :=
  sched.foldl (initSystemStep load) s

/-- Consistency invariant for concurrent `init` runs whose shared load result
is `.ok v`: the cell is empty or holds exactly the decoded value `v`, and any
task that has already returned success sees the populated cell. -/
def initInv {T : Type} (v : T) (s : InitSystem T) : Prop :=
  (s.cell = none ∨ s.cell = some v) ∧
  ((∃ ph ∈ s.tasks, ph = InitPhase.finished true) → s.cell = some v)

/-!
Theorems.
-/

/-- C2: after `update(V2)` returns successfully on an initialized artifact,
the entire stored value is `V2` — `get` yields exactly `V2` (no mixture with
the prior value), and only a later `update` commit replaces it again. -/
theorem update_atomic_full_replace {T : Type} (a : Artifact T) (v1 v2 : T)
    (h : a.data = some v1) :
    a.update v2 = .value (⟨some v2⟩, .ok ()) ∧
    Artifact.get (⟨some v2⟩ : Artifact T) = .value (.ok v2) ∧
    (∀ v3 : T, Artifact.update (⟨some v2⟩ : Artifact T) v3 =
      .value (⟨some v3⟩, .ok ())) := by
  obtain ⟨d⟩ := a
  cases h
  exact ⟨rfl, rfl, fun _ => rfl⟩

theorem update_atomic_full_replace_witness :
    (⟨some (1, 2)⟩ : Artifact (Nat × Nat)).data = some (1, 2) ∧
    (Artifact.update (⟨some (1, 2)⟩ : Artifact (Nat × Nat)) (3, 4) =
        .value (⟨some (3, 4)⟩, .ok ()) ∧
      Artifact.get (⟨some (3, 4)⟩ : Artifact (Nat × Nat)) = .value (.ok (3, 4)) ∧
      (∀ v3, Artifact.update (⟨some (3, 4)⟩ : Artifact (Nat × Nat)) v3 =
        .value (⟨some v3⟩, .ok ()))) :=
  ⟨rfl, update_atomic_full_replace ⟨some (1, 2)⟩ (1, 2) (3, 4) rfl⟩

/-- C3: `init` on an already populated artifact returns success immediately,
performs zero source accesses, and leaves the stored value unchanged. -/
theorem init_noop_when_initialized {T : Type} (a : Artifact T)
    (env : String → Option String) (fs : String → Except String String)
    (decode : String → Except String T) (file : String) (v : T)
    (h : a.data = some v) :
    a.init env fs decode file = ⟨⟨some v⟩, .ok (), 0⟩ := by
  obtain ⟨d⟩ := a
  cases h
  rfl

theorem init_noop_when_initialized_witness :
    (⟨some 5⟩ : Artifact Nat).data = some 5 ∧
    Artifact.init (⟨some 5⟩ : Artifact Nat) (fun _ => none)
        (fun _ => .ok "anything") (fun _ => .ok 9) "f.json" =
      ⟨⟨some 5⟩, .ok (), 0⟩ :=
  ⟨rfl, init_noop_when_initialized ⟨some 5⟩ (fun _ => none)
    (fun _ => .ok "anything") (fun _ => .ok 9) "f.json" 5 rfl⟩

/-- C4: when loading fails, `init` returns an error and the cell stays empty,
and a later `init` against a source that loads successfully still succeeds. -/
theorem init_failure_leaves_cell_empty {T : Type}
    (env : String → Option String) (fs : String → Except String String)
    (decode : String → Except String T) (file : String) (e : ArtifactError)
    (h : get_data fs decode
        (path_join (get_env_or_default env "ARTIFACTS_PATH" "artifacts") file) =
      .error e) :
    Artifact.init (⟨none⟩ : Artifact T) env fs decode file =
      ⟨⟨none⟩, .error (.InitializationError e.toString), 1⟩ ∧
    (∀ (fs2 : String → Except String String)
        (decode2 : String → Except String T) (v : T),
      get_data fs2 decode2
          (path_join (get_env_or_default env "ARTIFACTS_PATH" "artifacts") file) =
        .ok v →
      Artifact.init (⟨none⟩ : Artifact T) env fs2 decode2 file =
        ⟨⟨some v⟩, .ok (), 1⟩) := by
  constructor
  · simp [Artifact.init, h]
  · intro fs2 decode2 v h2
    simp [Artifact.init, h2]

theorem init_failure_leaves_cell_empty_witness :
    (get_data (fun _ => .error "No such file or directory (os error 2)")
        (fun _ => .ok (1 : Nat))
        (path_join (get_env_or_default (fun _ => none) "ARTIFACTS_PATH" "artifacts")
          "f.json") =
      .error (.IoError "No such file or directory (os error 2)")) ∧
    (Artifact.init (⟨none⟩ : Artifact Nat) (fun _ => none)
        (fun _ => .error "No such file or directory (os error 2)")
        (fun _ => .ok 1) "f.json" =
      ⟨⟨none⟩,
        .error (.InitializationError
          "I/O error: No such file or directory (os error 2)"), 1⟩ ∧
      (∀ (fs2 : String → Except String String)
          (decode2 : String → Except String Nat) (v : Nat),
        get_data fs2 decode2
            (path_join (get_env_or_default (fun _ => none) "ARTIFACTS_PATH" "artifacts")
              "f.json") =
          .ok v →
        Artifact.init (⟨none⟩ : Artifact Nat) (fun _ => none) fs2 decode2 "f.json" =
          ⟨⟨some v⟩, .ok (), 1⟩)) :=
  ⟨rfl, init_failure_leaves_cell_empty (fun _ => none)
    (fun _ => .error "No such file or directory (os error 2)")
    (fun _ => .ok 1) "f.json" (.IoError "No such file or directory (os error 2)") rfl⟩

/-- C8: for any well-formed document `s` decoding to `v`, `init` on a fresh
artifact stores `v`, returns success, and a following `get` yields `v`. -/
theorem init_get_round_trip {T : Type} (env : String → Option String)
    (fs : String → Except String String) (decode : String → Except String T)
    (file s : String) (v : T)
    (hfs : fs (path_join (get_env_or_default env "ARTIFACTS_PATH" "artifacts") file) =
      .ok s)
    (hdec : decode s = .ok v) :
    Artifact.init (⟨none⟩ : Artifact T) env fs decode file = ⟨⟨some v⟩, .ok (), 1⟩ ∧
    Artifact.get (Artifact.init (⟨none⟩ : Artifact T) env fs decode file).artifact =
      .value (.ok v) := by
  have hinit : Artifact.init (⟨none⟩ : Artifact T) env fs decode file =
      ⟨⟨some v⟩, .ok (), 1⟩ := by
    simp [Artifact.init, get_data, hfs, hdec]
  exact ⟨hinit, by rw [hinit]; rfl⟩

theorem init_get_round_trip_witness :
    ((fun p => if p = "artifacts/f.json" then (.ok "doc" : Except String String)
        else .error "absent")
        (path_join (get_env_or_default (fun _ => none) "ARTIFACTS_PATH" "artifacts")
          "f.json") =
      .ok "doc") ∧
    ((fun s => if s = "doc" then (.ok (42 : Nat) : Except String Nat)
        else .error "bad") "doc" = .ok 42) ∧
    (Artifact.init (⟨none⟩ : Artifact Nat) (fun _ => none)
        (fun p => if p = "artifacts/f.json" then .ok "doc" else .error "absent")
        (fun s => if s = "doc" then .ok 42 else .error "bad") "f.json" =
      ⟨⟨some 42⟩, .ok (), 1⟩ ∧
      Artifact.get (Artifact.init (⟨none⟩ : Artifact Nat) (fun _ => none)
          (fun p => if p = "artifacts/f.json" then .ok "doc" else .error "absent")
          (fun s => if s = "doc" then .ok 42 else .error "bad") "f.json").artifact =
        .value (.ok 42)) :=
  ⟨by decide, by decide,
    init_get_round_trip (fun _ => none)
      (fun p => if p = "artifacts/f.json" then .ok "doc" else .error "absent")
      (fun s => if s = "doc" then .ok 42 else .error "bad") "f.json" "doc" 42
      (by decide) (by decide)⟩

/-- C10: an absolute `artifact_file` makes `Path::join` discard the base from
`ARTIFACTS_PATH`, so `init` behaves identically under any environment and
`watch` polls exactly `artifact_file`. -/
theorem absolute_path_replaces_base {T : Type} (file : String)
    (h : isAbsolute file = true) :
    (∀ base, path_join base file = file) ∧
    (∀ (env env2 : String → Option String) (fs : String → Except String String)
        (decode : String → Except String T) (a : Artifact T),
      a.init env fs decode file = a.init env2 fs decode file) ∧
    (∀ (env : String → Option String)
        (fsAt : Nat → String → Except String String)
        (decode : String → Except String T) (a : Artifact T) (fuel : Nat),
      a.watch env fsAt decode file fuel = watchGo fsAt decode file a 0 fuel) := by
  refine ⟨fun base => by simp [path_join, h], ?_, ?_⟩
  · intro env env2 fs decode a
    obtain ⟨d⟩ := a
    cases d <;> simp [Artifact.init, path_join, h]
  · intro env fsAt decode a fuel
    simp [Artifact.watch, path_join, h]

theorem absolute_path_replaces_base_witness :
    (isAbsolute "/etc/app/f.json" = true) ∧
    ((∀ base, path_join base "/etc/app/f.json" = "/etc/app/f.json") ∧
      (∀ (env env2 : String → Option String) (fs : String → Except String String)
          (decode : String → Except String Nat) (a : Artifact Nat),
        a.init env fs decode "/etc/app/f.json" = a.init env2 fs decode "/etc/app/f.json") ∧
      (∀ (env : String → Option String)
          (fsAt : Nat → String → Except String String)
          (decode : String → Except String Nat) (a : Artifact Nat) (fuel : Nat),
        a.watch env fsAt decode "/etc/app/f.json" fuel =
          watchGo fsAt decode "/etc/app/f.json" a 0 fuel)) :=
  ⟨by decide, absolute_path_replaces_base "/etc/app/f.json" (by decide)⟩

/-- C5 counterexample: a source-unreachable failure and a decode failure both
come back from `init` as the single `InitializationError` variant — the same
error kind — so `init`'s error does not expose the two causes as distinct
inspectable kinds. -/
theorem init_failures_share_error_kind :
    ((Artifact.init (⟨none⟩ : Artifact Nat) (fun _ => none)
        (fun _ => .error "No such file or directory (os error 2)")
        (fun _ => .error "expected value") "f.json").result =
      .error (.InitializationError
        "I/O error: No such file or directory (os error 2)")) ∧
    ((Artifact.init (⟨none⟩ : Artifact Nat) (fun _ => none)
        (fun _ => .ok "bad content")
        (fun _ => .error "expected value") "f.json").result =
      .error (.InitializationError
        "JSON serialization/deserialization error: expected value")) ∧
    ArtifactError.kind
        (.InitializationError "I/O error: No such file or directory (os error 2)") =
      ArtifactError.kind
        (.InitializationError
          "JSON serialization/deserialization error: expected value") := by
  exact ⟨rfl, rfl, rfl⟩

/-- C5 (amended): both failure classes are wrapped into the one
`InitializationError` variant, so they share an error kind; the cause remains
distinguishable only through the stringified message, prefixed `I/O error:`
for unreachable sources and `JSON serialization/deserialization error:` for
decode failures. -/
theorem init_failure_cause_in_message {T : Type} (env : String → Option String)
    (file : String) (fs fs2 : String → Except String String)
    (decode : String → Except String T) (m s m2 : String)
    (hio : fs (path_join (get_env_or_default env "ARTIFACTS_PATH" "artifacts") file) =
      .error m)
    (hok : fs2 (path_join (get_env_or_default env "ARTIFACTS_PATH" "artifacts") file) =
      .ok s)
    (hdec : decode s = .error m2) :
    (Artifact.init (⟨none⟩ : Artifact T) env fs decode file).result =
      .error (.InitializationError ("I/O error: " ++ m)) ∧
    (Artifact.init (⟨none⟩ : Artifact T) env fs2 decode file).result =
      .error (.InitializationError
        ("JSON serialization/deserialization error: " ++ m2)) ∧
    (ArtifactError.InitializationError ("I/O error: " ++ m)).kind =
      (ArtifactError.InitializationError
        ("JSON serialization/deserialization error: " ++ m2)).kind := by
  refine ⟨?_, ?_, rfl⟩
  · simp [Artifact.init, get_data, hio, ArtifactError.toString]
  · simp [Artifact.init, get_data, hok, hdec, ArtifactError.toString]

theorem init_failure_cause_in_message_witness :
    (Artifact.init (⟨none⟩ : Artifact Nat) (fun _ => none)
        (fun _ => .error "permission denied (os error 13)")
        (fun _ => .error "invalid type: string") "f.json").result =
      .error (.InitializationError ("I/O error: " ++ "permission denied (os error 13)")) ∧
    (Artifact.init (⟨none⟩ : Artifact Nat) (fun _ => none)
        (fun _ => .ok "bad content")
        (fun _ => .error "invalid type: string") "f.json").result =
      .error (.InitializationError
        ("JSON serialization/deserialization error: " ++ "invalid type: string")) ∧
    (ArtifactError.InitializationError ("I/O error: " ++ "permission denied (os error 13)")).kind =
      (ArtifactError.InitializationError
        ("JSON serialization/deserialization error: " ++ "invalid type: string")).kind :=
  init_failure_cause_in_message (fun _ => none) "f.json"
    (fun _ => .error "permission denied (os error 13)") (fun _ => .ok "bad content")
    (fun _ => .error "invalid type: string") "permission denied (os error 13)"
    "bad content" "invalid type: string" rfl rfl rfl

/-- C6 counterexample: `watch` on a never-initialized artifact whose source is
unreachable does not panic — it returns the recoverable `WatchError` result,
leaving the cell empty. -/
theorem watch_uninitialized_returns_recoverable_error :
    Artifact.watch (⟨none⟩ : Artifact Nat) (fun _ => none)
        (fun _ _ => .error "No such file or directory (os error 2)")
        (fun _ => .error "expected value") "example.json" 1 =
      .value (⟨none⟩,
        some (.WatchError "I/O error: No such file or directory (os error 2)")) := by
  exact rfl

/-- C6 (amended): `get` and `update` panic immediately when called before
`init` succeeded; `watch` performs no initialization check of its own — it
panics (inside `update`) only once a reload cycle's load succeeds, and if the
load fails first it instead returns a recoverable `WatchError`. -/
theorem uninitialized_access_aborts {T : Type} (v w : T)
    (fsAt : Nat → String → Except String String)
    (decode : String → Except String T) (path : String) (fuel : Nat)
    (hfuel : 0 < fuel) (hload : get_data (fsAt 0) decode path = .ok w) :
    Artifact.get (⟨none⟩ : Artifact T) = .panicked "Artifact is not initialized" ∧
    Artifact.update (⟨none⟩ : Artifact T) v = .panicked "Artifact is not initialized" ∧
    watchGo fsAt decode path (⟨none⟩ : Artifact T) 0 fuel =
      .panicked "Artifact is not initialized" := by
  refine ⟨rfl, rfl, ?_⟩
  obtain ⟨f, rfl⟩ : ∃ f, fuel = f + 1 := ⟨fuel - 1, by omega⟩
  simp [watchGo, hload, Artifact.update]

theorem uninitialized_access_aborts_witness :
    (0 < 1) ∧
    (get_data (fun _ => .ok "doc")
        (fun s => if s = "doc" then (.ok (1 : Nat) : Except String Nat) else .error "bad")
        "artifacts/f.json" = .ok 1) ∧
    (Artifact.get (⟨none⟩ : Artifact Nat) = .panicked "Artifact is not initialized" ∧
      Artifact.update (⟨none⟩ : Artifact Nat) 0 = .panicked "Artifact is not initialized" ∧
      watchGo (fun _ _ => .ok "doc")
          (fun s => if s = "doc" then .ok 1 else .error "bad")
          "artifacts/f.json" (⟨none⟩ : Artifact Nat) 0 1 =
        .panicked "Artifact is not initialized") :=
  ⟨by decide, by decide,
    uninitialized_access_aborts 0 1 (fun _ _ => .ok "doc")
      (fun s => if s = "doc" then .ok 1 else .error "bad") "artifacts/f.json" 1
      (by decide) (by decide)⟩

/-- Helper: if every load from cycle `k` through `k + fuel - 1` succeeds, the
watch loop on an initialized artifact runs all `fuel` cycles without
terminating, the cell staying populated. -/
theorem watchGo_all_ok {T : Type} (fsAt : Nat → String → Except String String)
    (decode : String → Except String T) (path : String) :
    ∀ (fuel k : Nat) (v : T),
      (∀ j, j < fuel → ∃ w, get_data (fsAt (k + j)) decode path = .ok w) →
      ∃ c, watchGo fsAt decode path ⟨some v⟩ k fuel = .value (⟨some c⟩, none) := by
  intro fuel
  induction fuel with
  | zero => intro k v _; exact ⟨v, rfl⟩
  | succ f ih =>
    intro k v h
    obtain ⟨w, hw⟩ := h 0 (Nat.succ_pos f)
    rw [Nat.add_zero] at hw
    have step : watchGo fsAt decode path ⟨some v⟩ k (f + 1) =
        watchGo fsAt decode path ⟨some w⟩ (k + 1) f := by
      simp [watchGo, hw, Artifact.update]
    rw [step]
    apply ih (k + 1) w
    intro j hj
    have hshift := h (j + 1) (Nat.succ_lt_succ hj)
    have e1 : k + (j + 1) = k + 1 + j := by omega
    rwa [e1] at hshift

/-- Helper: if the loads at cycles `k .. k + m - 1` succeed and the load at
cycle `k + m` fails with `e`, the watch loop on an initialized artifact
returns `WatchError(e.to_string())`, the cell still holding the last
successfully loaded value (the initial one when `m = 0`). -/
theorem watchGo_first_error {T : Type} (fsAt : Nat → String → Except String String)
    (decode : String → Except String T) (path : String) :
    ∀ (m fuel k : Nat) (v : T) (e : ArtifactError),
      m < fuel →
      (∀ j, j < m → ∃ w, get_data (fsAt (k + j)) decode path = .ok w) →
      get_data (fsAt (k + m)) decode path = .error e →
      ∃ c, watchGo fsAt decode path ⟨some v⟩ k fuel =
          .value (⟨some c⟩, some (.WatchError e.toString)) ∧
        (m = 0 → c = v) ∧
        (0 < m → get_data (fsAt (k + m - 1)) decode path = .ok c) := by
  intro m
  induction m with
  | zero =>
    intro fuel k v e hf _ herr
    obtain ⟨f, rfl⟩ : ∃ f, fuel = f + 1 := ⟨fuel - 1, by omega⟩
    rw [Nat.add_zero] at herr
    refine ⟨v, ?_, fun _ => rfl, fun h0 => absurd h0 (by omega)⟩
    simp [watchGo, herr]
  | succ n ih =>
    intro fuel k v e hf hok herr
    obtain ⟨f, rfl⟩ : ∃ f, fuel = f + 1 := ⟨fuel - 1, by omega⟩
    obtain ⟨w, hw⟩ := hok 0 (Nat.succ_pos n)
    rw [Nat.add_zero] at hw
    have step : watchGo fsAt decode path ⟨some v⟩ k (f + 1) =
        watchGo fsAt decode path ⟨some w⟩ (k + 1) f := by
      simp [watchGo, hw, Artifact.update]
    have herr2 : get_data (fsAt (k + 1 + n)) decode path = .error e := by
      have e1 : k + 1 + n = k + (n + 1) := by omega
      rw [e1]; exact herr
    have hok2 : ∀ j, j < n → ∃ w2, get_data (fsAt (k + 1 + j)) decode path = .ok w2 := by
      intro j hj
      have hshift := hok (j + 1) (Nat.succ_lt_succ hj)
      have e1 : k + (j + 1) = k + 1 + j := by omega
      rwa [e1] at hshift
    obtain ⟨c, hc, hc0, hcpos⟩ := ih f (k + 1) w e (by omega) hok2 herr2
    refine ⟨c, by rw [step]; exact hc, fun h => absurd h (Nat.succ_ne_zero n), ?_⟩
    intro _
    rcases Nat.eq_zero_or_pos n with h0 | hpos
    · subst h0
      have e1 : k + (0 + 1) - 1 = k := by omega
      rw [e1, hc0 rfl]
      exact hw
    · have e1 : k + (n + 1) - 1 = k + 1 + n - 1 := by omega
      rw [e1]
      exact hcpos hpos

/-- C7: on an initialized artifact, the watch loop never terminates while
loads keep succeeding; on the first failing load it returns that cycle's
error as `WatchError` without retrying, and the stored value is the last
successfully loaded one (the initial value if the first cycle fails), so it
remains available via `get`. -/
theorem watch_terminates_only_on_loader_error {T : Type}
    (fsAt : Nat → String → Except String String)
    (decode : String → Except String T) (path : String) (v : T) (fuel : Nat) :
    ((∀ j, j < fuel → ∃ w, get_data (fsAt j) decode path = .ok w) →
      ∃ c, watchGo fsAt decode path ⟨some v⟩ 0 fuel = .value (⟨some c⟩, none)) ∧
    (∀ m e, m < fuel →
      (∀ j, j < m → ∃ w, get_data (fsAt j) decode path = .ok w) →
      get_data (fsAt m) decode path = .error e →
      ∃ c, watchGo fsAt decode path ⟨some v⟩ 0 fuel =
          .value (⟨some c⟩, some (.WatchError e.toString)) ∧
        (m = 0 → c = v) ∧
        (0 < m → get_data (fsAt (m - 1)) decode path = .ok c)) := by
  constructor
  · intro h
    apply watchGo_all_ok fsAt decode path fuel 0 v
    intro j hj
    simpa using h j hj
  · intro m e hm hok herr
    have hres := watchGo_first_error fsAt decode path m fuel 0 v e hm
      (by intro j hj; simpa using hok j hj) (by simpa using herr)
    simpa using hres

theorem watch_terminates_only_on_loader_error_witness :
    ∃ c, watchGo (fun _ _ => .ok "doc")
        (fun s => if s = "doc" then (.ok (1 : Nat) : Except String Nat) else .error "bad")
        "artifacts/f.json" (⟨some 0⟩ : Artifact Nat) 0 3 = .value (⟨some c⟩, none) :=
  (watch_terminates_only_on_loader_error (fun _ _ => .ok "doc")
      (fun s => if s = "doc" then .ok 1 else .error "bad")
      "artifacts/f.json" 0 3).1 (fun _ _ => ⟨1, rfl⟩)

/-- Helper: the watch loop can never produce an `UpdateError` result, because
`update` on a populated cell always returns `Ok(())` and on an empty cell it
panics instead of returning. -/
theorem watchGo_no_updateError {T : Type}
    (fsAt : Nat → String → Except String String)
    (decode : String → Except String T) (path : String) :
    ∀ (fuel k : Nat) (a : Artifact T) (r : Artifact T × Option ArtifactError)
      (m : String),
      watchGo fsAt decode path a k fuel = .value r →
      r.2 ≠ some (.UpdateError m) := by
  intro fuel
  induction fuel with
  | zero =>
    intro k a r m h
    injection h with h1
    rw [← h1]
    simp
  | succ f ih =>
    intro k a r m h
    obtain ⟨da⟩ := a
    cases hg : get_data (fsAt k) decode path with
    | error e =>
      simp only [watchGo, hg] at h
      injection h with h1
      rw [← h1]
      simp
    | ok d =>
      cases da with
      | none =>
        simp only [watchGo, hg, Artifact.update] at h
        exact Panics.noConfusion h
      | some w =>
        simp only [watchGo, hg, Artifact.update] at h
        exact ih (k + 1) ⟨some d⟩ r m h

/-- C9: once the cell is populated, `update` and `get` always return `Ok`
(their only non-`Ok` behaviour is the uninitialized panic), and consequently
the branch of `watch` that wraps an `update` error into `UpdateError` is
unreachable: no watch run ever returns an `UpdateError`. -/
theorem update_get_infallible_once_initialized {T : Type} (a : Artifact T)
    (w : T) (h : a.data = some w) :
    (∀ v, a.update v = .value (⟨some v⟩, .ok ())) ∧
    a.get = .value (.ok w) ∧
    (∀ (fsAt : Nat → String → Except String String)
        (decode : String → Except String T) (path : String) (fuel k : Nat)
        (b : Artifact T) (r : Artifact T × Option ArtifactError) (m : String),
      watchGo fsAt decode path b k fuel = .value r →
      r.2 ≠ some (.UpdateError m)) := by
  obtain ⟨d⟩ := a
  cases h
  exact ⟨fun _ => rfl, rfl,
    fun fsAt decode path fuel k b r m hh =>
      watchGo_no_updateError fsAt decode path fuel k b r m hh⟩

theorem update_get_infallible_once_initialized_witness :
    (⟨some 3⟩ : Artifact Nat).data = some 3 ∧
    ((∀ v, Artifact.update (⟨some 3⟩ : Artifact Nat) v = .value (⟨some v⟩, .ok ())) ∧
      Artifact.get (⟨some 3⟩ : Artifact Nat) = .value (.ok 3) ∧
      (∀ (fsAt : Nat → String → Except String String)
          (decode : String → Except String Nat) (path : String) (fuel k : Nat)
          (b : Artifact Nat) (r : Artifact Nat × Option ArtifactError) (m : String),
        watchGo fsAt decode path b k fuel = .value r →
        r.2 ≠ some (.UpdateError m))) :=
  ⟨rfl, update_get_infallible_once_initialized ⟨some 3⟩ 3 rfl⟩

/-- C1 counterexample: two `init` calls interleaved check-check-set-set (the
emptiness check and the load-and-set are separated by an await on the load)
decode the source twice, and the second caller panics on
`OnceCell::set(..).unwrap()` instead of observing success — refuting "exactly
one decode and all callers observe success". -/
theorem init_race_double_decode :
    initRun (.ok 7) (⟨none, [.ready, .ready], 0⟩ : InitSystem Nat) [0, 1, 0, 1] =
      ⟨some 7, [.finished true, .panicked], 2⟩ ∧
    (initRun (.ok 7) (⟨none, [.ready, .ready], 0⟩ : InitSystem Nat)
        [0, 1, 0, 1]).decodes ≠ 1 ∧
    (initRun (.ok 7) (⟨none, [.ready, .ready], 0⟩ : InitSystem Nat)
        [0, 1, 0, 1]).tasks ≠ [.finished true, .finished true] := by
  decide

/-- Helper: one interleaving step of the concurrent `init` system preserves
the consistency invariant when the shared load result is `.ok v`. -/
theorem initSystemStep_preserves_inv {T : Type} (v : T) (s : InitSystem T)
    (i : Nat) (hinv : initInv v s) : initInv v (initSystemStep (.ok v) s i) := by
  obtain ⟨hcell, hfin⟩ := hinv
  unfold initSystemStep
  cases hti : s.tasks[i]? with
  | none => exact ⟨hcell, hfin⟩
  | some ph =>
    have hmem : ph ∈ s.tasks := by
      obtain ⟨hl, rfl⟩ := List.getElem?_eq_some.mp hti
      exact List.getElem_mem hl
    cases ph with
    | ready =>
      cases hc : s.cell with
      | none =>
        simp only [initTaskStep, hc]
        refine ⟨Or.inl rfl, ?_⟩
        rintro ⟨q, hq, rfl⟩
        rcases List.mem_or_eq_of_mem_set hq with hq2 | hq2
        · have := hfin ⟨_, hq2, rfl⟩
          rw [hc] at this
          cases this
        · cases hq2
      | some w =>
        have hw : w = v := by
          rcases hcell with h | h
          · rw [hc] at h; cases h
          · rw [hc] at h; injection h
        subst hw
        simp only [initTaskStep, hc]
        exact ⟨Or.inr rfl, fun _ => rfl⟩
    | checked =>
      cases hc : s.cell with
      | none =>
        simp only [initTaskStep, hc]
        exact ⟨Or.inr rfl, fun _ => rfl⟩
      | some w =>
        have hw : w = v := by
          rcases hcell with h | h
          · rw [hc] at h; cases h
          · rw [hc] at h; injection h
        subst hw
        simp only [initTaskStep, hc]
        exact ⟨Or.inr rfl, fun _ => rfl⟩
    | finished ok =>
      simp only [initTaskStep]
      refine ⟨hcell, ?_⟩
      rintro ⟨q, hq, rfl⟩
      rcases List.mem_or_eq_of_mem_set hq with hq2 | hq2
      · exact hfin ⟨_, hq2, rfl⟩
      · injection hq2 with hok
        subst hok
        exact hfin ⟨_, hmem, rfl⟩
    | panicked =>
      simp only [initTaskStep]
      refine ⟨hcell, ?_⟩
      rintro ⟨q, hq, rfl⟩
      rcases List.mem_or_eq_of_mem_set hq with hq2 | hq2
      · exact hfin ⟨_, hq2, rfl⟩
      · cases hq2

/-- C1 (amended): under every interleaving of any number of concurrent `init`
calls whose load succeeds with `v`, the container never reaches an
inconsistent state — the cell is always either empty or holds exactly the
decoded value `v`, and every caller that has returned success sees the
populated cell with that identical value.  (Exactly-one-decode and
all-callers-succeed do not hold: see the race counterexample, where the
source is decoded twice and the losing caller panics.) -/
theorem concurrent_init_no_inconsistent_state {T : Type} (v : T) (n : Nat)
    (sched : List Nat) :
    initInv v (initRun (.ok v) ⟨none, List.replicate n .ready, 0⟩ sched) := by
  have base : initInv v (⟨none, List.replicate n .ready, 0⟩ : InitSystem T) := by
    refine ⟨Or.inl rfl, ?_⟩
    rintro ⟨q, hq, rfl⟩
    cases List.eq_of_mem_replicate hq
  suffices h : ∀ (l : List Nat) (s : InitSystem T),
      initInv v s → initInv v (initRun (.ok v) s l) from h sched _ base
  intro l
  induction l with
  | nil => intro s hs; exact hs
  | cons i rest ih =>
    intro s hs
    exact ih _ (initSystemStep_preserves_inv v s i hs)

end ArtifactsCrate
